import Mathlib

/-!
Shallow embedding of `NetworkManager.go` from the gonetworkmanager
repository: a thin typed client over an inter-process message bus.
Remote interaction is modelled by passing the decoded outcome of each
remote call or property read as an explicit argument (an `Except` value),
and the subscription machinery by explicit state passing on a record
mirroring the Go struct.  Go functions returning `(value, error)` pairs
are embedded as functions returning `Option value × Option DBusError`,
with Go's `nil` rendered as `none`.
-/

set_option autoImplicit false

/-- A bus object path (`dbus.ObjectPath`): a hierarchical address string. -/
abbrev ObjectPath := String

/-- Error taxonomy of the bus client (spec section 7): transport faults,
structured remote faults, reply-decoding faults, and remote faults decoded
into a plain string. -/
inductive DBusError where
  | transportError (msg : String)
  | remoteError (name : String) (body : List String)
  | decodeError (msg : String)
  | plainError (msg : String)
deriving DecidableEq

/-- Characters allowed inside an object-path element: letters, digits and
underscore. -/
def isMemberChar (c : Char) : Bool :=
  c.isAlpha || c.isDigit || c = '_'

/-- Scan the characters of a path after its leading slash.  The flag is
`true` immediately after a slash, when a member character must follow
(rules out empty elements and a trailing slash). -/
def pathCharsOk : Bool → List Char → Bool
  | true, [] => false
  | true, c :: cs => isMemberChar c && pathCharsOk false cs
  | false, [] => true
  | false, '/' :: cs => pathCharsOk true cs
  | false, c :: cs => isMemberChar c && pathCharsOk false cs

/-- Validity of a bus object path (`dbus.ObjectPath.IsValid`): absolute,
no empty element, restricted element characters; `/` alone is the root. -/
def isValidObjectPath (p : ObjectPath) : Bool :=
  match p.data with
  | '/' :: rest => rest.isEmpty || pathCharsOk true rest
  | _ => false

/-! Constants from `NetworkManager.go` lines 9-18. -/

def NetworkManagerInterface : String := "org.freedesktop.NetworkManager"

def NetworkManagerObjectPath : ObjectPath := "/org/freedesktop/NetworkManager"

def NetworkManagerGetDevices : String := NetworkManagerInterface ++ ".GetDevices"

def NetworkManagerActivateConnection : String := NetworkManagerInterface ++ ".ActivateConnection"

def NetworkManagerAddAndActivateConnection : String := NetworkManagerInterface ++ ".AddAndActivateConnection"

def NetworkManagerPropertyState : String := NetworkManagerInterface ++ ".State"

def NetworkManagerPropertyActiveConnection : String := NetworkManagerInterface ++ ".ActiveConnections"

/-- `type NmState uint32`: the daemon's aggregate-state code.  A Go
conversion `NmState(r)` between integer types is the identity on the
underlying value, so the type is embedded as the code itself. -/
abbrev NmState := Nat

/-- Modelled from the spec: the `NmState` constants live in an enums file
that is not under src/.  The defined codes mirror the daemon's documented
mapping named by the spec (0 is unknown, 70 is connected). -/
def NmStateUnknown : NmState := 0

def NmStateAsleep : NmState := 10

def NmStateDisconnected : NmState := 20

def NmStateDisconnecting : NmState := 30

def NmStateConnecting : NmState := 40

def NmStateConnectedLocal : NmState := 50

def NmStateConnectedSite : NmState := 60

def NmStateConnectedGlobal : NmState := 70

/-- The closed set of state codes defined by the daemon's published schema. -/
def definedNmStates : List NmState :=
  [NmStateUnknown, NmStateAsleep, NmStateDisconnected, NmStateDisconnecting,
   NmStateConnecting, NmStateConnectedLocal, NmStateConnectedSite,
   NmStateConnectedGlobal]

/-- Modelled from the spec: `NmState.String` is not under src/; it renders
the aggregate state as its human-readable name. -/
def NmStateString (s : NmState) : String :=
  if s = NmStateUnknown then "Unknown"
  else if s = NmStateAsleep then "Asleep"
  else if s = NmStateDisconnected then "Disconnected"
  else if s = NmStateDisconnecting then "Disconnecting"
  else if s = NmStateConnecting then "Connecting"
  else if s = NmStateConnectedLocal then "ConnectedLocal"
  else if s = NmStateConnectedSite then "ConnectedSite"
  else if s = NmStateConnectedGlobal then "ConnectedGlobal"
  else "Unknown"

/-- A device handle: a thin wrapper around a remote object path. -/
structure Device where
  path : ObjectPath
deriving DecidableEq

/-- An active-connection handle: a thin wrapper around a remote object path. -/
structure ActiveConnection where
  path : ObjectPath
deriving DecidableEq

/-- Modelled from the spec: `DeviceFactory` is not under src/; it wraps an
object path into a `Device` handle.  Per the spec, wrapping succeeds for
every valid object path and the handle's path equals the input; an invalid
path is the failure mode. -/
def DeviceFactory (p : ObjectPath) : Except DBusError Device :=
  if isValidObjectPath p then .ok ⟨p⟩
  else .error (.decodeError "invalid object path")

/-- Modelled from the spec: `NewActiveConnection` is not under src/; it
wraps an object path into an `ActiveConnection` handle, succeeding for
every valid object path with the path preserved. -/
def NewActiveConnection (p : ObjectPath) : Except DBusError ActiveConnection :=
  if isValidObjectPath p then .ok ⟨p⟩
  else .error (.decodeError "invalid object path")

/-- The `for i, path := range paths` wrap loop shared by `GetDevices` and
`GetActiveConnections`: wraps each path in order and aborts with the first
wrap error. -/
def wrapEach {α : Type} (f : ObjectPath → Except DBusError α) :
    List ObjectPath → Except DBusError (List α)
  | [] => .ok []
  | p :: ps =>
    match f p with
    | .error e => .error e
    | .ok d =>
      match wrapEach f ps with
      | .error e => .error e
      | .ok ds => .ok (d :: ds)

/-- `networkManager.GetDevices` (lines 77-94): the argument is the decoded
outcome of the `GetDevices` remote call.  Go returns `(nil, err)` on any
failure and the full wrapped list otherwise. -/
def networkManager.GetDevices (callRes : Except DBusError (List ObjectPath)) :
    Option (List Device) × Option DBusError :=
  match callRes with
  | .error e => (none, some e)
  | .ok devicePaths =>
    match wrapEach DeviceFactory devicePaths with
    | .error e => (none, some e)
    | .ok devices => (some devices, none)

/-- `networkManager.GetState` (lines 96-102): the argument is the outcome
of `getUint32Property` on the state property (a `uint32` value on success).
On error Go returns `(NmStateUnknown, err)`; on success it returns the
plain conversion `NmState(r)`. -/
def networkManager.GetState (prop : Except DBusError Nat) :
    NmState × Option DBusError :=
  match prop with
  | .error e => (NmStateUnknown, some e)
  | .ok r => (r, none)

/-- `networkManager.GetActiveConnections` (lines 104-119): the argument is
the outcome of `getSliceObjectProperty` on the active-connections property. -/
def networkManager.GetActiveConnections (propRes : Except DBusError (List ObjectPath)) :
    Option (List ActiveConnection) × Option DBusError :=
  match propRes with
  | .error e => (none, some e)
  | .ok acPaths =>
    match wrapEach NewActiveConnection acPaths with
    | .error e => (none, some e)
    | .ok ac => (some ac, none)

/-- `networkManager.ActivateWirelessConnection` (lines 121-124): the
argument is the outcome of the `ActivateConnection` remote call decoding
one object path.  The Go body is `return nil, n.call(&opath, ...)`: the
decoded path is discarded and the handle result is always `nil`. -/
def networkManager.ActivateWirelessConnection (callRes : Except DBusError ObjectPath) :
    Option ActiveConnection × Option DBusError :=
  match callRes with
  | .error e => (none, some e)
  | .ok _opath => (none, none)

/-- The undecoded outcome of the `AddAndActivateConnection` remote call:
either a reply carrying two object paths, or a bus fault with a name and a
detail body. -/
inductive RawReply where
  | ok (path1 path2 : ObjectPath)
  | fault (name : String) (body : List String)
deriving DecidableEq

/-- Modelled from the spec: `dbusBase.call2` is not under src/; it decodes
a two-path reply, turning a bus fault into a structured remote error that
keeps the fault name and detail body. -/
def call2 : RawReply → Except DBusError (ObjectPath × ObjectPath)
  | .ok p1 p2 => .ok (p1, p2)
  | .fault name body => .error (.remoteError name body)

/-- Modelled from the spec: `dbusBase.callError2` is not under src/; it
decodes the same two-path reply, turning a bus fault into a plain error
string instead. -/
def callError2 : RawReply → Except DBusError (ObjectPath × ObjectPath)
  | .ok p1 p2 => .ok (p1, p2)
  | .fault name _body => .error (.plainError name)

/-- First duplicated `networkManager.AddAndActivateWirelessConnection`
(lines 126-140), the `call2` variant: decodes two paths, discards the
first, wraps the second with `NewActiveConnection`. -/
def networkManager.AddAndActivateWirelessConnection (reply : RawReply) :
    Option ActiveConnection × Option DBusError :=
  match call2 reply with
  | .error e => (none, some e)
  | .ok (_opath1, opath2) =>
    match NewActiveConnection opath2 with
    | .error e => (none, some e)
    | .ok ac => (some ac, none)

/-- Second duplicated `networkManager.AddAndActivateWirelessConnection`
(lines 142-156), identical except that faults are decoded by `callError2`. -/
def networkManager.AddAndActivateWirelessConnection' (reply : RawReply) :
    Option ActiveConnection × Option DBusError :=
  match callError2 reply with
  | .error e => (none, some e)
  | .ok (_opath1, opath2) =>
    match NewActiveConnection opath2 with
    | .error e => (none, some e)
    | .ok ac => (some ac, none)

/-- A signal channel is identified by its allocation number; `make(chan)`
hands out fresh identities. -/
abbrev Chan := Nat

/-- The shared bus connection state relevant to the subscription calls:
which channels are registered for signal delivery (`conn.Signal`), which
channels have been closed, the fresh-channel allocator, and the
object-path namespaces with a registered match rule. -/
structure DBusConn where
  registered : List Chan
  closed : List Chan
  nextChan : Chan
  namespaces : List ObjectPath
deriving DecidableEq

/-- `conn.Signal(ch)`: registers the channel for signal delivery. -/
def DBusConn.Signal (conn : DBusConn) (c : Chan) : DBusConn :=
  { conn with registered := conn.registered ++ [c] }

/-- `conn.RemoveSignal(ch)`: removes the channel from signal delivery; it
does not close the channel.  A `nil` channel argument is a no-op. -/
def DBusConn.RemoveSignal (conn : DBusConn) : Option Chan → DBusConn
  | none => conn
  | some c => { conn with registered := conn.registered.filter (fun x => x != c) }

/-- Modelled from the spec: `dbusBase.subscribeNamespace` is not under
src/; it registers a match rule for all signals under the given
object-path namespace. -/
def subscribeNamespace (conn : DBusConn) (path : ObjectPath) : DBusConn :=
  { conn with namespaces := conn.namespaces ++ [path] }

/-- The `networkManager` struct (lines 71-75): the embedded bus connection
and the subscription channel (`nil` when unsubscribed). -/
structure networkManager where
  conn : DBusConn
  sigChan : Option Chan
deriving DecidableEq

/-- `NewNetworkManager` (lines 66-69): starts with no subscription; the
fresh connection has nothing registered, nothing closed. -/
def NewNetworkManager : networkManager :=
  { conn := { registered := [], closed := [], nextChan := 0, namespaces := [] },
    sigChan := none }

/-- `networkManager.Subscribe` (lines 158-168): returns the stored channel
if one exists; otherwise registers the namespace match, allocates a fresh
buffered channel, registers it for delivery and stores it. -/
def networkManager.Subscribe (n : networkManager) : Chan × networkManager :=
  match n.sigChan with
  | some c => (c, n)
  | none =>
    let conn1 := subscribeNamespace n.conn NetworkManagerObjectPath
    let c := conn1.nextChan
    let conn2 := { conn1 with nextChan := c + 1 }
    let conn3 := conn2.Signal c
    (c, { conn := conn3, sigChan := some c })

/-- `networkManager.Unsubscribe` (lines 170-173): removes the stored
channel from signal delivery and clears it.  The Go body never calls
`close` on the channel. -/
def networkManager.Unsubscribe (n : networkManager) : networkManager :=
  { n with conn := n.conn.RemoveSignal n.sigChan, sigChan := none }

/-- The structured snapshot rendered by `MarshalJSON`: the state's
human-readable name and the device list. -/
structure Snapshot where
  networkState : String
  devices : List Device
deriving DecidableEq

/-- `networkManager.MarshalJSON` (lines 175-188): reads the state, failing
first; then the device list; then renders the snapshot.  The arguments are
the outcomes of the two underlying reads. -/
def networkManager.MarshalJSON (stateProp : Except DBusError Nat)
    (devCall : Except DBusError (List ObjectPath)) :
    Option Snapshot × Option DBusError :=
  let s := networkManager.GetState stateProp
  match s.2 with
  | some e => (none, some e)
  | none =>
    let d := networkManager.GetDevices devCall
    match d.2, d.1 with
    | some e, _ => (none, some e)
    | none, some devices =>
      (some { networkState := NmStateString s.1, devices := devices }, none)
    | none, none => (none, none)

/-! Helper lemmas about the shared wrap loop. -/

theorem wrapEach_error_of_mem {α : Type} (f : ObjectPath → Except DBusError α) :
    ∀ ps : List ObjectPath, (∃ p ∈ ps, ∃ e, f p = .error e) →
      ∃ e, wrapEach f ps = .error e := by
  intro ps
  induction ps with
  | nil => rintro ⟨p, hp, _⟩; simp at hp
  | cons q qs ih =>
    rintro ⟨p, hp, e, he⟩
    rcases List.mem_cons.mp hp with rfl | hmem
    · exact ⟨e, by simp [wrapEach, he]⟩
    · match hq : f q with
      | .error e' => exact ⟨e', by simp [wrapEach, hq]⟩
      | .ok d =>
        obtain ⟨e', he'⟩ := ih ⟨p, hmem, e, he⟩
        exact ⟨e', by simp [wrapEach, hq, he']⟩

theorem wrapEach_ok_of_forall {α : Type} (f : ObjectPath → Except DBusError α)
    (g : ObjectPath → α) :
    ∀ ps : List ObjectPath, (∀ p ∈ ps, f p = .ok (g p)) →
      wrapEach f ps = .ok (ps.map g) := by
  intro ps
  induction ps with
  | nil => intro; rfl
  | cons q qs ih =>
    intro h
    have hq := h q (List.mem_cons_self q qs)
    have hqs := ih fun p hp => h p (List.mem_cons_of_mem q hp)
    simp [wrapEach, hq, hqs]

/-- Claim C1, counterexample: the daemon value 71 is outside the defined
set, yet `GetState` returns the conversion `NmState(71) = 71` with no
error, not the unknown sentinel `NmStateUnknown = 0`: the claim that any
integer outside the defined set yields `NmStateUnknown` is false. -/
theorem getState_out_of_range_not_unknown_cex :
    networkManager.GetState (Except.ok 71) = (71, none) ∧
    (71 : NmState) ∉ definedNmStates ∧
    ¬ ((71 : NmState) = NmStateUnknown ∧
       networkManager.GetState (Except.ok 71) = (NmStateUnknown, none)) := by
  refine ⟨rfl, by decide, ?_⟩
  rintro ⟨h, -⟩
  exact absurd h (by decide)

/-- Claim C1 (amended): for every integer successfully read, `GetState`
returns exactly that integer converted to the state type with a nil
error — the exact corresponding variant for each defined code (0 is
`NmStateUnknown`, 70 is `NmStateConnectedGlobal`), and for a code outside
the defined set the raw out-of-range value, not the unknown sentinel. -/
theorem getState_returns_cast_verbatim :
    (∀ r : Nat, networkManager.GetState (Except.ok r) = (r, none)) ∧
    networkManager.GetState (Except.ok 0) = (NmStateUnknown, none) ∧
    networkManager.GetState (Except.ok 70) = (NmStateConnectedGlobal, none) :=
  ⟨fun _ => rfl, rfl, rfl⟩

/-- Claim C10: whenever the underlying property read fails, `GetState`
returns the pair of the unknown sentinel and that error. -/
theorem getState_error_returns_unknown (e : DBusError) :
    networkManager.GetState (Except.error e) = (NmStateUnknown, some e) := rfl

/-- Claim C2, counterexample: on a successful remote call returning a
valid object path, `ActivateWirelessConnection` returns a nil handle (and
nil error); the claim that it returns a non-nil handle whose path equals
the returned path is false. -/
theorem activateWireless_nil_handle_cex :
    networkManager.ActivateWirelessConnection (Except.ok "/org/fd/NM/AC/1") =
      (none, none) ∧
    ¬ ∃ ac : ActiveConnection,
        (networkManager.ActivateWirelessConnection (Except.ok "/org/fd/NM/AC/1")).1 =
          some ac := by
  refine ⟨rfl, ?_⟩
  rintro ⟨ac, h⟩
  simp [networkManager.ActivateWirelessConnection] at h

/-- Claim C2 (amended): `ActivateWirelessConnection` propagates the remote
call's error verbatim but always returns a nil handle, discarding the
decoded object path even on success. -/
theorem activateWireless_returns_nil_handle :
    (∀ p : ObjectPath,
      networkManager.ActivateWirelessConnection (Except.ok p) = (none, none)) ∧
    (∀ e : DBusError,
      networkManager.ActivateWirelessConnection (Except.error e) = (none, some e)) :=
  ⟨fun _ => rfl, fun _ => rfl⟩

/-- Claim C3: on a successful add-and-activate remote call returning two
object paths, the result is an `ActiveConnection` handle whose path equals
the second returned path; the first returned path never influences the
result. -/
theorem addAndActivate_wraps_second_path (p1 p2 : ObjectPath)
    (h : isValidObjectPath p2 = true) :
    networkManager.AddAndActivateWirelessConnection (RawReply.ok p1 p2) =
      (some ⟨p2⟩, none) ∧
    ∀ q1 : ObjectPath,
      networkManager.AddAndActivateWirelessConnection (RawReply.ok q1 p2) =
        networkManager.AddAndActivateWirelessConnection (RawReply.ok p1 p2) := by
  constructor
  · simp [networkManager.AddAndActivateWirelessConnection, call2,
      NewActiveConnection, h]
  · intro q1; rfl

/-- Claim C3, witness at a concrete two-path reply. -/
theorem addAndActivate_wraps_second_path_witness :
    isValidObjectPath "/ac/2" = true ∧
    networkManager.AddAndActivateWirelessConnection (RawReply.ok "/s/5" "/ac/2") =
      (some ⟨"/ac/2"⟩, none) :=
  ⟨by decide, (addAndActivate_wraps_second_path "/s/5" "/ac/2" (by decide)).1⟩

/-- Claim C9: the two duplicated add-and-activate definitions agree on
every successful two-path reply, both wrapping the second path; they can
differ only in how a fault reply is decoded. -/
theorem addAndActivate_variants_agree (p1 p2 : ObjectPath) :
    networkManager.AddAndActivateWirelessConnection (RawReply.ok p1 p2) =
      networkManager.AddAndActivateWirelessConnection' (RawReply.ok p1 p2) ∧
    (isValidObjectPath p2 = true →
      networkManager.AddAndActivateWirelessConnection' (RawReply.ok p1 p2) =
        (some ⟨p2⟩, none)) := by
  refine ⟨rfl, fun h => ?_⟩
  simp [networkManager.AddAndActivateWirelessConnection', callError2,
    NewActiveConnection, h]

/-- Claim C9, witness at a concrete two-path reply. -/
theorem addAndActivate_variants_agree_witness :
    networkManager.AddAndActivateWirelessConnection (RawReply.ok "/c/1" "/a/1") =
      networkManager.AddAndActivateWirelessConnection' (RawReply.ok "/c/1" "/a/1") ∧
    networkManager.AddAndActivateWirelessConnection' (RawReply.ok "/c/1" "/a/1") =
      (some ⟨"/a/1"⟩, none) :=
  ⟨(addAndActivate_variants_agree "/c/1" "/a/1").1,
   (addAndActivate_variants_agree "/c/1" "/a/1").2 (by decide)⟩

/-- Claim C8: for a device-enumeration reply whose paths are all valid,
each wrap succeeds with the path preserved, and `GetDevices` returns the
handles in order, the i-th handle wrapping the i-th returned path. -/
theorem getDevices_roundtrip_order (paths : List ObjectPath)
    (h : ∀ p ∈ paths, isValidObjectPath p = true) :
    (∀ p ∈ paths, DeviceFactory p = Except.ok ⟨p⟩) ∧
    ∃ devs : List Device,
      networkManager.GetDevices (Except.ok paths) = (some devs, none) ∧
      devs.map Device.path = paths := by
  have hf : ∀ p ∈ paths, DeviceFactory p = Except.ok (⟨p⟩ : Device) := by
    intro p hp
    simp [DeviceFactory, h p hp]
  refine ⟨hf, paths.map (fun p => ⟨p⟩), ?_, ?_⟩
  · have hw := wrapEach_ok_of_forall DeviceFactory (fun p => (⟨p⟩ : Device)) paths hf
    simp [networkManager.GetDevices, hw]
  · simp [List.map_map]
    exact List.map_id paths

/-- Claim C8, witness at a concrete two-element enumeration reply. -/
theorem getDevices_roundtrip_order_witness :
    ∃ devs : List Device,
      networkManager.GetDevices (Except.ok ["/d/0", "/d/1"]) = (some devs, none) ∧
      devs.map Device.path = ["/d/0", "/d/1"] :=
  (getDevices_roundtrip_order ["/d/0", "/d/1"] (by decide)).2

/-- Claim C6: if any element of the reply fails to wrap, `GetDevices` and
`GetActiveConnections` each return a nil list together with an error —
never a partial list. -/
theorem enumerations_atomic (devPaths acPaths : List ObjectPath)
    (h1 : ∃ p ∈ devPaths, ∃ e, DeviceFactory p = Except.error e)
    (h2 : ∃ p ∈ acPaths, ∃ e, NewActiveConnection p = Except.error e) :
    (networkManager.GetDevices (Except.ok devPaths)).1 = none ∧
    (networkManager.GetDevices (Except.ok devPaths)).2 ≠ none ∧
    (networkManager.GetActiveConnections (Except.ok acPaths)).1 = none ∧
    (networkManager.GetActiveConnections (Except.ok acPaths)).2 ≠ none := by
  obtain ⟨e1, he1⟩ := wrapEach_error_of_mem DeviceFactory devPaths h1
  obtain ⟨e2, he2⟩ := wrapEach_error_of_mem NewActiveConnection acPaths h2
  simp [networkManager.GetDevices, networkManager.GetActiveConnections, he1, he2]

/-- Claim C6, witness: a relative path fails to wrap as a device and the
empty path fails to wrap as an active connection; both enumerations fail
with a nil list. -/
theorem enumerations_atomic_witness :
    (networkManager.GetDevices (Except.ok ["bad"])).1 = none ∧
    (networkManager.GetDevices (Except.ok ["bad"])).2 ≠ none ∧
    (networkManager.GetActiveConnections (Except.ok [""])).1 = none ∧
    (networkManager.GetActiveConnections (Except.ok [""])).2 ≠ none :=
  enumerations_atomic ["bad"] [""]
    ⟨"bad", List.mem_singleton.mpr rfl, DBusError.decodeError "invalid object path", rfl⟩
    ⟨"", List.mem_singleton.mpr rfl, DBusError.decodeError "invalid object path", rfl⟩

/-- Claim C5: `Subscribe` is idempotent — in any state already holding a
subscription channel it returns that same channel and leaves the whole
state (registrations included) unchanged. -/
theorem subscribe_idempotent (n : networkManager) (c : Chan)
    (hs : n.sigChan = some c) :
    networkManager.Subscribe n = (c, n) := by
  simp [networkManager.Subscribe, hs]

/-- Claim C5, witness: subscribing twice from the fresh manager returns
channel 0 again with the state untouched. -/
theorem subscribe_idempotent_witness :
    networkManager.Subscribe (networkManager.Subscribe NewNetworkManager).2 =
      (0, (networkManager.Subscribe NewNetworkManager).2) :=
  subscribe_idempotent (networkManager.Subscribe NewNetworkManager).2 0 rfl

/-- Claim C4, counterexample: starting from the fresh manager, `Subscribe`
hands out channel 0 and `Unsubscribe` clears the stored channel, yet the
set of closed channels stays empty — the stream is never closed, so the
claim that `Unsubscribe` closes the notification stream is false. -/
theorem unsubscribe_does_not_close_cex :
    (networkManager.Subscribe NewNetworkManager).1 = 0 ∧
    (networkManager.Unsubscribe (networkManager.Subscribe NewNetworkManager).2).sigChan =
      none ∧
    (networkManager.Unsubscribe (networkManager.Subscribe NewNetworkManager).2).conn.closed =
      [] :=
  ⟨rfl, rfl, rfl⟩

/-- Claim C4 (amended): `Unsubscribe` cancels the channel's signal
registration and clears the stored channel without closing it; a
subsequent `Subscribe` allocates, registers and returns a fresh channel
distinct from the previous one. -/
theorem unsubscribe_then_subscribe_fresh (n : networkManager) (c : Chan)
    (hs : n.sigChan = some c) (hlt : c < n.conn.nextChan) :
    (networkManager.Unsubscribe n).sigChan = none ∧
    c ∉ (networkManager.Unsubscribe n).conn.registered ∧
    (networkManager.Unsubscribe n).conn.closed = n.conn.closed ∧
    (networkManager.Subscribe (networkManager.Unsubscribe n)).1 ≠ c ∧
    (networkManager.Subscribe (networkManager.Unsubscribe n)).1 ∈
      (networkManager.Subscribe (networkManager.Unsubscribe n)).2.conn.registered := by
  refine ⟨rfl, ?_, ?_, ?_, ?_⟩
  · simp [networkManager.Unsubscribe, DBusConn.RemoveSignal, hs, List.mem_filter]
  · simp [networkManager.Unsubscribe, DBusConn.RemoveSignal, hs]
  · simp [networkManager.Subscribe, networkManager.Unsubscribe,
      DBusConn.RemoveSignal, hs, subscribeNamespace]
    exact Nat.ne_of_gt hlt
  · simp [networkManager.Subscribe, networkManager.Unsubscribe,
      DBusConn.RemoveSignal, hs, subscribeNamespace, DBusConn.Signal]

/-- Claim C4, witness: subscribe, unsubscribe, subscribe again from the
fresh manager; the second subscription is channel 1, registered, distinct
from channel 0. -/
theorem unsubscribe_then_subscribe_fresh_witness :
    (networkManager.Unsubscribe (networkManager.Subscribe NewNetworkManager).2).sigChan =
      none ∧
    0 ∉ (networkManager.Unsubscribe
          (networkManager.Subscribe NewNetworkManager).2).conn.registered ∧
    (networkManager.Unsubscribe
        (networkManager.Subscribe NewNetworkManager).2).conn.closed =
      (networkManager.Subscribe NewNetworkManager).2.conn.closed ∧
    (networkManager.Subscribe
        (networkManager.Unsubscribe (networkManager.Subscribe NewNetworkManager).2)).1 ≠ 0 ∧
    (networkManager.Subscribe
        (networkManager.Unsubscribe (networkManager.Subscribe NewNetworkManager).2)).1 ∈
      (networkManager.Subscribe
        (networkManager.Unsubscribe (networkManager.Subscribe NewNetworkManager).2)).2.conn.registered :=
  unsubscribe_then_subscribe_fresh (networkManager.Subscribe NewNetworkManager).2 0
    rfl (by decide)

/-- Claim C7: `MarshalJSON` fails whenever either underlying read fails,
returning a nil snapshot with an error; when the state read fails, the
result is that error regardless of the device-list read's outcome, so no
partial snapshot is ever produced. -/
theorem marshalJSON_fails_if_read_fails (stateProp : Except DBusError Nat)
    (devCall : Except DBusError (List ObjectPath))
    (h : (networkManager.GetState stateProp).2 ≠ none ∨
         (networkManager.GetDevices devCall).2 ≠ none) :
    (networkManager.MarshalJSON stateProp devCall).1 = none ∧
    (networkManager.MarshalJSON stateProp devCall).2 ≠ none ∧
    (∀ e, stateProp = Except.error e →
      ∀ devCall2 : Except DBusError (List ObjectPath),
        networkManager.MarshalJSON stateProp devCall2 = (none, some e)) := by
  cases stateProp with
  | error e =>
    refine ⟨rfl, ?_, ?_⟩
    · simp [networkManager.MarshalJSON, networkManager.GetState]
    · intro e' he' devCall2
      injection he' with h'
      subst h'
      rfl
  | ok r =>
    have hd : (networkManager.GetDevices devCall).2 ≠ none := by
      rcases h with h1 | h2
      · exact absurd rfl h1
      · exact h2
    obtain ⟨e, he⟩ : ∃ e, (networkManager.GetDevices devCall).2 = some e := by
      cases hval : (networkManager.GetDevices devCall).2 with
      | none => exact absurd hval hd
      | some e => exact ⟨e, rfl⟩
    refine ⟨?_, ?_, ?_⟩
    · simp [networkManager.MarshalJSON, networkManager.GetState, he]
    · simp [networkManager.MarshalJSON, networkManager.GetState, he]
    · intro e' he'
      exact absurd he' (by simp)

/-- Claim C7, witness: with the state read failing on a transport fault,
the snapshot is nil and the fault is returned whatever the device read
would have produced. -/
theorem marshalJSON_fails_if_read_fails_witness :
    (networkManager.MarshalJSON (Except.error (DBusError.transportError "down"))
        (Except.ok [])).1 = none ∧
    (networkManager.MarshalJSON (Except.error (DBusError.transportError "down"))
        (Except.ok [])).2 ≠ none ∧
    (∀ e, (Except.error (DBusError.transportError "down") : Except DBusError Nat) =
        Except.error e →
      ∀ devCall2 : Except DBusError (List ObjectPath),
        networkManager.MarshalJSON (Except.error (DBusError.transportError "down"))
          devCall2 = (none, some e)) :=
  marshalJSON_fails_if_read_fails (Except.error (DBusError.transportError "down"))
    (Except.ok []) (Or.inl (by simp [networkManager.GetState]))
